/-
Verification of the clinical-trials record store, response cache, session
refinement, and filter engine (translated from `src/utils/helpers.ts`,
`src/models/types.ts`, the MCP tool handler, and `src/utils/cache.ts`).

Modelling conventions:
* TypeScript optional fields become `Option`; zod fields with a `.default`
  become plain values (that is the shape of every parsed `Study`).
* JavaScript truthiness tests on optional strings (`if (filters.x)`) become
  `strTruthy`; `!== undefined` tests become `Option.isSome`.
* Machine numbers are `Int` with explicit wrapping where the code relies on
  32-bit overflow (the cache key hash).
* Only the record fields that the verified operations read are modelled.
-/
import Mathlib

namespace ClinicalTrials

/-! ## Data model (from `src/models/types.ts`, zod schemas) -/

/-- `identificationModule` (fields read by the verified code). -/
structure IdentificationModule where
  nctId : String
  briefTitle : String
  officialTitle : String
  acronym : String
  deriving DecidableEq, Repr

/-- A `{date, type}` struct from `statusModule`. -/
structure DateStruct where
  date : Option String
  type : Option String
  deriving DecidableEq, Repr

/-- `statusModule` (required in every study). -/
structure StatusModule where
  overallStatus : String
  startDateStruct : Option DateStruct
  primaryCompletionDateStruct : Option DateStruct
  completionDateStruct : Option DateStruct
  lastUpdatePostDateStruct : Option DateStruct
  deriving DecidableEq, Repr

/-- `descriptionModule`. -/
structure DescriptionModule where
  briefSummary : String
  detailedDescription : String
  deriving DecidableEq, Repr

/-- `conditionsModule`. -/
structure ConditionsModule where
  conditions : List String
  keywords : List String
  deriving DecidableEq, Repr

/-- `designModule.designInfo.maskingInfo`. -/
structure MaskingInfo where
  masking : Option String
  deriving DecidableEq, Repr

/-- `designModule.designInfo`. -/
structure DesignInfo where
  allocation : Option String
  interventionModel : Option String
  primaryPurpose : Option String
  maskingInfo : Option MaskingInfo
  deriving DecidableEq, Repr

/-- `designModule.enrollmentInfo`. -/
structure EnrollmentInfo where
  count : Option Int
  type : Option String
  deriving DecidableEq, Repr

/-- `designModule`. -/
structure DesignModule where
  studyType : String
  phases : List String
  designInfo : Option DesignInfo
  enrollmentInfo : Option EnrollmentInfo
  deriving DecidableEq, Repr

/-- An intervention from `armsInterventionsModule.interventions`. -/
structure Intervention where
  type : Option String
  name : Option String
  description : Option String
  deriving DecidableEq, Repr

/-- `armsInterventionsModule`. -/
structure ArmsInterventionsModule where
  interventions : List Intervention
  deriving DecidableEq, Repr

/-- `eligibilityModule`. -/
structure EligibilityModule where
  eligibilityCriteria : Option String
  healthyVolunteers : Option Bool
  sex : Option String
  minimumAge : Option String
  maximumAge : Option String
  stdAges : List String
  deriving DecidableEq, Repr

/-- A site from `contactsLocationsModule.locations`. -/
structure Location where
  facility : Option String
  status : Option String
  city : Option String
  state : Option String
  country : Option String
  deriving DecidableEq, Repr

/-- `contactsLocationsModule`. -/
structure ContactsLocationsModule where
  locations : List Location
  deriving DecidableEq, Repr

/-- `sponsorCollaboratorsModule.leadSponsor` (`class` is a Lean keyword, so
the sponsor-class field is called `class_`). -/
structure LeadSponsor where
  name : Option String
  class_ : Option String
  deriving DecidableEq, Repr

/-- `sponsorCollaboratorsModule`. -/
structure SponsorCollaboratorsModule where
  leadSponsor : Option LeadSponsor
  deriving DecidableEq, Repr

/-- `oversightModule` (both flags optional in the source schema). -/
structure OversightModule where
  isFdaRegulatedDrug : Option Bool
  isFdaRegulatedDevice : Option Bool
  deriving DecidableEq, Repr

/-- `protocolSection`: identification and status are required, every other
sub-module is optional. -/
structure ProtocolSection where
  identificationModule : IdentificationModule
  statusModule : StatusModule
  descriptionModule : Option DescriptionModule
  conditionsModule : Option ConditionsModule
  designModule : Option DesignModule
  armsInterventionsModule : Option ArmsInterventionsModule
  eligibilityModule : Option EligibilityModule
  contactsLocationsModule : Option ContactsLocationsModule
  sponsorCollaboratorsModule : Option SponsorCollaboratorsModule
  oversightModule : Option OversightModule
  deriving DecidableEq, Repr

/-- A study record (`StudySchema`). -/
structure Study where
  protocolSection : ProtocolSection
  hasResults : Option Bool
  deriving DecidableEq, Repr

/-- `FilterParams` from `src/models/types.ts`. The TypeScript union types are
strings at runtime and the MCP handler casts unvalidated arguments into this
shape, so every enumeration field is modelled as an optional string. The
`phase` field is not declared in `FilterParams` but is read by
`filterStudies` through an `any` cast, so it is part of the runtime shape. -/
structure FilterParams where
  phase : Option String := none
  locationCountry : Option String := none
  locationState : Option String := none
  locationCity : Option String := none
  enrollmentMin : Option Int := none
  enrollmentMax : Option Int := none
  startDateAfter : Option String := none
  startDateBefore : Option String := none
  completionDateAfter : Option String := none
  completionDateBefore : Option String := none
  interventionType : Option String := none
  hasResults : Option Bool := none
  studyType : Option String := none
  sex : Option String := none
  healthyVolunteers : Option Bool := none
  sponsorClass : Option String := none
  allocation : Option String := none
  interventionModel : Option String := none
  primaryPurpose : Option String := none
  minAge : Option String := none
  maxAge : Option String := none
  ageGroups : Option (List String) := none
  masking : Option String := none
  fdaRegulated : Option Bool := none
  keyword : Option String := none
  deriving DecidableEq, Repr

/-! ## Filter engine (from `filterStudies` in `src/utils/helpers.ts`) -/

/-- JavaScript truthiness of an optional string: `undefined` and `""` are
falsy, every other string is truthy. -/
def strTruthy : Option String → Bool
  | none => false
  | some s => !s.isEmpty

/-- `.toUpperCase()` as a character map (all values compared by the filter
engine are ASCII, where this agrees with the JavaScript method). -/
def strToUpper (s : String) : String :=
  String.mk (s.data.map Char.toUpper)

/-- `.toLowerCase()` as a character map. -/
def strToLower (s : String) : String :=
  String.mk (s.data.map Char.toLower)

/-- JavaScript `<` on strings: lexicographic comparison of the character
sequences (code units; all compared values are ASCII). -/
def charListLt : List Char → List Char → Bool
  | _, [] => false
  | [], _ :: _ => true
  | a :: as, b :: bs => Nat.blt a.toNat b.toNat || (a == b && charListLt as bs)

/-- `a < b` for strings, as JavaScript compares them. -/
def strLt (a b : String) : Bool :=
  charListLt a.data b.data

/-- `a > b` for strings, as JavaScript compares them. -/
def strGt (a b : String) : Bool :=
  strLt b a

/-- Whether `pat` is a prefix of `s` (character lists). -/
def listStartsWith : List Char → List Char → Bool
  | _, [] => true
  | [], _ :: _ => false
  | c :: cs, p :: ps => c == p && listStartsWith cs ps

/-- Whether `pat` occurs as a contiguous run inside `s` (character lists). -/
def listContainsSub : List Char → List Char → Bool
  | [], pat => pat.isEmpty
  | c :: t, pat => listStartsWith (c :: t) pat || listContainsSub t pat

/-- JavaScript `a.includes(b)`: `b` occurs as a contiguous substring of `a`
(the empty string occurs in everything). -/
def strContains (s pat : String) : Bool :=
  listContainsSub s.data pat.data

/-- The enumeration canonicalization used by the allocation, intervention
model and primary purpose branches: upper-case, then every space becomes an
underscore (`.toUpperCase().replace(/ /g, "_")` — a global single-character
replacement, i.e. a character map). -/
def normalizeEnum (s : String) : String :=
  String.mk ((strToUpper s).data.map fun c => if c == ' ' then '_' else c)

/-- Phase filter branch (`filters.phase`): matches a study whose phase list
contains the requested phase case-insensitively, with `"phase 1"` also
accepting `"early phase 1"`. -/
def checkPhase (filters : FilterParams) (study : Study) : Bool :=
  match filters.phase with
  | none => true
  | some phaseFilter =>
    if phaseFilter.isEmpty then true
    else
      let phases := ((study.protocolSection.designModule).map DesignModule.phases).getD []
      let normalizedFilter := strToLower phaseFilter
      phases.any fun p =>
        let normalizedPhase := strToLower p
        if normalizedFilter == "phase 1" then
          normalizedPhase == "phase 1" || normalizedPhase == "early phase 1"
        else
          normalizedPhase == normalizedFilter

/-- Location-country branch: some listed site's country contains the query,
case-insensitively. A site without a country never satisfies it. -/
def checkLocationCountry (filters : FilterParams) (study : Study) : Bool :=
  match filters.locationCountry with
  | none => true
  | some q =>
    if q.isEmpty then true
    else
      let locations := ((study.protocolSection.contactsLocationsModule).map
        ContactsLocationsModule.locations).getD []
      locations.any fun loc =>
        match loc.country with
        | some c => strContains (strToLower c) (strToLower q)
        | none => false

/-- Location-state branch. -/
def checkLocationState (filters : FilterParams) (study : Study) : Bool :=
  match filters.locationState with
  | none => true
  | some q =>
    if q.isEmpty then true
    else
      let locations := ((study.protocolSection.contactsLocationsModule).map
        ContactsLocationsModule.locations).getD []
      locations.any fun loc =>
        match loc.state with
        | some st => strContains (strToLower st) (strToLower q)
        | none => false

/-- Location-city branch. -/
def checkLocationCity (filters : FilterParams) (study : Study) : Bool :=
  match filters.locationCity with
  | none => true
  | some q =>
    if q.isEmpty then true
    else
      let locations := ((study.protocolSection.contactsLocationsModule).map
        ContactsLocationsModule.locations).getD []
      locations.any fun loc =>
        match loc.city with
        | some c => strContains (strToLower c) (strToLower q)
        | none => false

/-- The study's enrollment count, `designModule?.enrollmentInfo?.count`. -/
def enrollmentOf (study : Study) : Option Int :=
  (study.protocolSection.designModule).bind fun d =>
    (d.enrollmentInfo).bind fun e => e.count

/-- Enrollment lower bound: applied only when the bound is given *and* the
record has a count (`!== undefined` on both sides). -/
def checkEnrollmentMin (filters : FilterParams) (study : Study) : Bool :=
  match filters.enrollmentMin, enrollmentOf study with
  | some lo, some n => !(n < lo)
  | _, _ => true

/-- Enrollment upper bound, same guard shape as the lower bound. -/
def checkEnrollmentMax (filters : FilterParams) (study : Study) : Bool :=
  match filters.enrollmentMax, enrollmentOf study with
  | some hi, some n => !(n > hi)
  | _, _ => true

/-- The study's start date, `statusModule?.startDateStruct?.date`. -/
def startDateOf (study : Study) : Option String :=
  (study.protocolSection.statusModule.startDateStruct).bind DateStruct.date

/-- The study's completion date. -/
def completionDateOf (study : Study) : Option String :=
  (study.protocolSection.statusModule.completionDateStruct).bind DateStruct.date

/-- Start-date-after branch: both the bound and the record date must be
truthy, then lexicographic string comparison. -/
def checkStartDateAfter (filters : FilterParams) (study : Study) : Bool :=
  match filters.startDateAfter, startDateOf study with
  | some bound, some d =>
    if bound.isEmpty || d.isEmpty then true else !(strLt d bound)
  | _, _ => true

/-- Start-date-before branch. -/
def checkStartDateBefore (filters : FilterParams) (study : Study) : Bool :=
  match filters.startDateBefore, startDateOf study with
  | some bound, some d =>
    if bound.isEmpty || d.isEmpty then true else !(strGt d bound)
  | _, _ => true

/-- Completion-date-after branch. -/
def checkCompletionDateAfter (filters : FilterParams) (study : Study) : Bool :=
  match filters.completionDateAfter, completionDateOf study with
  | some bound, some d =>
    if bound.isEmpty || d.isEmpty then true else !(strLt d bound)
  | _, _ => true

/-- Completion-date-before branch. -/
def checkCompletionDateBefore (filters : FilterParams) (study : Study) : Bool :=
  match filters.completionDateBefore, completionDateOf study with
  | some bound, some d =>
    if bound.isEmpty || d.isEmpty then true else !(strGt d bound)
  | _, _ => true

/-- Intervention-type branch: some intervention's type equals the query
case-insensitively (an intervention without a type never matches). -/
def checkInterventionType (filters : FilterParams) (study : Study) : Bool :=
  match filters.interventionType with
  | none => true
  | some q =>
    if q.isEmpty then true
    else
      let interventions := ((study.protocolSection.armsInterventionsModule).map
        ArmsInterventionsModule.interventions).getD []
      interventions.any fun int =>
        match int.type with
        | some t => (strToLower t) == (strToLower q)
        | none => false

/-- Has-results branch: strict equality of the record's optional flag with
the requested flag (`study.hasResults !== filters.hasResults`), so a record
with no flag is excluded whenever the filter is specified. -/
def checkHasResults (filters : FilterParams) (study : Study) : Bool :=
  match filters.hasResults with
  | none => true
  | some b => study.hasResults == some b

/-- Study-type branch: `designModule?.studyType?.toUpperCase()` compared to
the upper-cased query — no separator normalization. -/
def checkStudyType (filters : FilterParams) (study : Study) : Bool :=
  match filters.studyType with
  | none => true
  | some q =>
    if q.isEmpty then true
    else
      ((study.protocolSection.designModule).map
        (fun d => strToUpper d.studyType)) == some (strToUpper q)

/-- Sex branch: upper-cased equality, no separator normalization. -/
def checkSex (filters : FilterParams) (study : Study) : Bool :=
  match filters.sex with
  | none => true
  | some q =>
    if q.isEmpty then true
    else
      (((study.protocolSection.eligibilityModule).bind
        EligibilityModule.sex).map strToUpper) == some (strToUpper q)

/-- Healthy-volunteers branch: strict equality of the record's optional flag
with the requested flag. -/
def checkHealthyVolunteers (filters : FilterParams) (study : Study) : Bool :=
  match filters.healthyVolunteers with
  | none => true
  | some b =>
    ((study.protocolSection.eligibilityModule).bind
      EligibilityModule.healthyVolunteers) == some b

/-- Sponsor-class branch: upper-cased equality, no separator
normalization. -/
def checkSponsorClass (filters : FilterParams) (study : Study) : Bool :=
  match filters.sponsorClass with
  | none => true
  | some q =>
    if q.isEmpty then true
    else
      ((((study.protocolSection.sponsorCollaboratorsModule).bind
        SponsorCollaboratorsModule.leadSponsor).bind
          LeadSponsor.class_).map strToUpper) == some (strToUpper q)

/-- Allocation branch: upper-case *and* space-to-underscore normalization on
both sides. -/
def checkAllocation (filters : FilterParams) (study : Study) : Bool :=
  match filters.allocation with
  | none => true
  | some q =>
    if q.isEmpty then true
    else
      ((((study.protocolSection.designModule).bind
        DesignModule.designInfo).bind
          DesignInfo.allocation).map normalizeEnum) == some (normalizeEnum q)

/-- Intervention-model branch: normalized like allocation. -/
def checkInterventionModel (filters : FilterParams) (study : Study) : Bool :=
  match filters.interventionModel with
  | none => true
  | some q =>
    if q.isEmpty then true
    else
      ((((study.protocolSection.designModule).bind
        DesignModule.designInfo).bind
          DesignInfo.interventionModel).map normalizeEnum)
        == some (normalizeEnum q)

/-- Primary-purpose branch: normalized like allocation. -/
def checkPrimaryPurpose (filters : FilterParams) (study : Study) : Bool :=
  match filters.primaryPurpose with
  | none => true
  | some q =>
    if q.isEmpty then true
    else
      ((((study.protocolSection.designModule).bind
        DesignModule.designInfo).bind
          DesignInfo.primaryPurpose).map normalizeEnum)
        == some (normalizeEnum q)

/-- Minimum-age branch: excluded when the record's minimum age is falsy
(absent or empty) or the literal `"N/A"`, otherwise a raw lexicographic
string comparison. -/
def checkMinAge (filters : FilterParams) (study : Study) : Bool :=
  match filters.minAge with
  | none => true
  | some q =>
    if q.isEmpty then true
    else
      match (study.protocolSection.eligibilityModule).bind
        EligibilityModule.minimumAge with
      | none => false
      | some a =>
        if a.isEmpty || a == "N/A" then false else !(strLt a q)

/-- Maximum-age branch, mirror of the minimum-age branch. -/
def checkMaxAge (filters : FilterParams) (study : Study) : Bool :=
  match filters.maxAge with
  | none => true
  | some q =>
    if q.isEmpty then true
    else
      match (study.protocolSection.eligibilityModule).bind
        EligibilityModule.maximumAge with
      | none => false
      | some a =>
        if a.isEmpty || a == "N/A" then false else !(strGt a q)

/-- Age-groups branch: at least one requested group appears in the record's
standard-age list, case-insensitively (checked only for a present, nonempty
request array). -/
def checkAgeGroups (filters : FilterParams) (study : Study) : Bool :=
  match filters.ageGroups with
  | none => true
  | some ags =>
    if ags.length == 0 then true
    else
      let studyAgeGroups := ((study.protocolSection.eligibilityModule).map
        EligibilityModule.stdAges).getD []
      ags.any fun ag => studyAgeGroups.any fun sag => strToUpper sag == strToUpper ag

/-- Masking branch: upper-cased equality, no separator normalization. -/
def checkMasking (filters : FilterParams) (study : Study) : Bool :=
  match filters.masking with
  | none => true
  | some q =>
    if q.isEmpty then true
    else
      (((((study.protocolSection.designModule).bind
        DesignModule.designInfo).bind
          DesignInfo.maskingInfo).bind
            MaskingInfo.masking).map strToUpper) == some (strToUpper q)

/-- The JavaScript value of `oversight.isFdaRegulatedDrug ||
oversight.isFdaRegulatedDevice`: the drug flag when it is truthy (`some
true`), otherwise the device flag unchanged. -/
def fdaRegulatedValue (o : OversightModule) : Option Bool :=
  if o.isFdaRegulatedDrug == some true then some true else o.isFdaRegulatedDevice

/-- FDA-regulated branch: when specified, a record with no
`oversightModule` at all is excluded (fail closed); otherwise the drug-OR-
device value must be strictly equal to the requested flag. -/
def checkFdaRegulated (filters : FilterParams) (study : Study) : Bool :=
  match filters.fdaRegulated with
  | none => true
  | some b =>
    match study.protocolSection.oversightModule with
    | some oversight => fdaRegulatedValue oversight == some b
    | none => false

/-- Keyword branch: case-insensitive substring match against the keyword
list. -/
def checkKeyword (filters : FilterParams) (study : Study) : Bool :=
  match filters.keyword with
  | none => true
  | some q =>
    if q.isEmpty then true
    else
      let keywords := ((study.protocolSection.conditionsModule).map
        ConditionsModule.keywords).getD []
      keywords.any fun kw => strContains (strToLower kw) (strToLower q)

/-- The per-record predicate of `filterStudies`: the conjunction of every
filter branch, in source order (each `if (...) return false` either fails the
record or falls through to the next branch). -/
def matchesStudy (study : Study) (filters : FilterParams) : Bool :=
  checkPhase filters study &&
  checkLocationCountry filters study &&
  checkLocationState filters study &&
  checkLocationCity filters study &&
  checkEnrollmentMin filters study &&
  checkEnrollmentMax filters study &&
  checkStartDateAfter filters study &&
  checkStartDateBefore filters study &&
  checkCompletionDateAfter filters study &&
  checkCompletionDateBefore filters study &&
  checkInterventionType filters study &&
  checkHasResults filters study &&
  checkStudyType filters study &&
  checkSex filters study &&
  checkHealthyVolunteers filters study &&
  checkSponsorClass filters study &&
  checkAllocation filters study &&
  checkInterventionModel filters study &&
  checkPrimaryPurpose filters study &&
  checkMinAge filters study &&
  checkMaxAge filters study &&
  checkAgeGroups filters study &&
  checkMasking filters study &&
  checkFdaRegulated filters study &&
  checkKeyword filters study

/-- `filterStudies(studies, filters)`: the records on which the per-record
predicate holds, in input order. -/
def filterStudies (studies : List Study) (filters : FilterParams) : List Study :=
  studies.filter fun study => matchesStudy study filters

/-! ## Response cache (from `CacheManager` in `src/utils/cache.ts`)

The cache is generic over the payload (`get<T>`/`set<T>`); payloads are
modelled as JSON values so that the JavaScript truthiness tests the code
performs on them (`if (memoryData)`, `if (diskData)`) are expressible.
The wall clock (`Date.now()`) is passed to every operation as an explicit
`now` argument, and both the in-memory `Map` and the on-disk file-per-key
store are modelled as maps from key to (already parsed) entry. -/

/-- A JSON payload value. -/
inductive Json where
  | null : Json
  | bool (b : Bool) : Json
  | num (n : Int) : Json
  | str (s : String) : Json
  | arr (elems : List Json) : Json
  | obj (fields : List (String × Json)) : Json

/-- JavaScript truthiness of a JSON value: `null`, `false`, `0` and `""`
are falsy; every array and object is truthy. -/
def jsTruthy : Json → Bool
  | Json.null => false
  | Json.bool b => b
  | Json.num n => !(n == 0)
  | Json.str s => !s.isEmpty
  | Json.arr _ => true
  | Json.obj _ => true

/-- Truthiness of a `T | null` JavaScript value. -/
def jsTruthyOpt : Option Json → Bool
  | none => false
  | some d => jsTruthy d

/-- `MEMORY_CACHE_TTL_MS = 60 * 1000` (one minute). -/
def MEMORY_CACHE_TTL_MS : Int := 60 * 1000

/-- `DISK_CACHE_TTL_MS = 24 * 60 * 60 * 1000` (24 hours). -/
def DISK_CACHE_TTL_MS : Int := 24 * 60 * 60 * 1000

/-- Wrap an integer to a signed 32-bit value, as JavaScript `ToInt32`
(applied by `<<` and `&`). -/
def toInt32 (n : Int) : Int :=
  let m := n % 4294967296
  if m ≥ 2147483648 then m - 4294967296 else m

/-- One step of the cache hash loop:
`hash = (hash << 5) - hash + char; hash = hash & hash`. The shift and the
final `&` each wrap to 32 bits; the intermediate sum is exact (it stays far
inside the float64-exact range). -/
def hashStep (hash : Int) (char : Int) : Int :=
  toInt32 (toInt32 (hash * 32) - hash + char)

/-- The digit alphabet of `Number.prototype.toString(36)`. -/
def base36Digit (n : Nat) : Char :=
  "0123456789abcdefghijklmnopqrstuvwxyz".toList.getD n '0'

/-- `n.toString(36)` for a natural number below `36^7` (every 32-bit
magnitude is): seven fixed digit extractions with leading zeros dropped. -/
def toBase36 (n : Nat) : String :=
  let ds := [n / 2176782336 % 36, n / 60466176 % 36, n / 1679616 % 36,
             n / 46656 % 36, n / 1296 % 36, n / 36 % 36, n % 36]
  let trimmed := ds.dropWhile (· == 0)
  String.mk ((if trimmed.isEmpty then [0] else trimmed).map base36Digit)

/-- `hashString`: fold the 32-bit hash over the string's code units (all
call sites stay in the basic plane, where code units and code points agree),
then render the absolute value in base 36. -/
def hashString (str : String) : String :=
  toBase36 (str.data.foldl (fun hash c => hashStep hash (c.toNat : Int)) 0).natAbs

/-- A JSON string literal. The call sites' keys and values need no escape
sequences, so escaping is not modelled. -/
def quoteJsonStr (s : String) : String :=
  "\"" ++ s ++ "\""

/-- `JSON.stringify(params, Object.keys(params).sort())` for a flat
string-valued parameter object (the shape used at every cache call site):
with a replacer array, properties are serialized in replacer order, i.e.
sorted key order, which makes the result insertion-order independent. -/
def stringifySortedParams (params : List (String × String)) : String :=
  let ks := (params.map Prod.fst).insertionSort (· ≤ ·)
  "\x7b" ++ String.intercalate ","
    (ks.filterMap fun k => (params.lookup k).map fun v =>
      quoteJsonStr k ++ ":" ++ quoteJsonStr v) ++ "\x7d"

/-- `generateKey(prefix, params)`. -/
def generateKey (pre : String) (params : List (String × String)) : String :=
  pre ++ ":" ++ hashString (stringifySortedParams params)

/-- A cache entry: payload plus write timestamp. -/
structure CacheEntry where
  data : Json
  timestamp : Int

/-- The two cache tiers. Disk entries are modelled post-parse (the source's
corrupt-file recovery path is outside the model). -/
structure CacheManager where
  memoryCache : String → Option CacheEntry
  diskCache : String → Option CacheEntry

/-- `getFromMemory`: a missing entry is `null`; an entry older than the
memory TTL is deleted and reported as `null`; otherwise the payload. -/
def CacheManager.getFromMemory (c : CacheManager) (now : Int) (key : String) :
    Option Json × CacheManager :=
  match c.memoryCache key with
  | none => (none, c)
  | some entry =>
    if now - entry.timestamp > MEMORY_CACHE_TTL_MS then
      (none, { c with memoryCache := fun k => if k == key then none else c.memoryCache k })
    else
      (some entry.data, c)

/-- `setInMemory`: store the payload under `key` with the current time. -/
def CacheManager.setInMemory (c : CacheManager) (now : Int) (key : String)
    (data : Json) : CacheManager :=
  { c with memoryCache := fun k => if k == key then some ⟨data, now⟩ else c.memoryCache k }

/-- `getFromDisk`: a missing file is `null`; a file older than the disk TTL
is unlinked and reported as `null`; otherwise the payload. -/
def CacheManager.getFromDisk (c : CacheManager) (now : Int) (key : String) :
    Option Json × CacheManager :=
  match c.diskCache key with
  | none => (none, c)
  | some entry =>
    if now - entry.timestamp > DISK_CACHE_TTL_MS then
      (none, { c with diskCache := fun k => if k == key then none else c.diskCache k })
    else
      (some entry.data, c)

/-- `setOnDisk`: write the payload and the current time to the key's file. -/
def CacheManager.setOnDisk (c : CacheManager) (now : Int) (key : String)
    (data : Json) : CacheManager :=
  { c with diskCache := fun k => if k == key then some ⟨data, now⟩ else c.diskCache k }

/-- `get(prefix, params)`: memory tier first (`if (memoryData) return`), then
disk tier; a truthy disk hit is promoted into the memory tier. -/
def CacheManager.get (c : CacheManager) (now : Int) (pre : String)
    (params : List (String × String)) : Option Json × CacheManager :=
  let key := generateKey pre params
  let (memoryData, c1) := c.getFromMemory now key
  if jsTruthyOpt memoryData then
    (memoryData, c1)
  else
    let (diskData, c2) := c1.getFromDisk now key
    match diskData with
    | some d =>
      if jsTruthy d then (some d, c2.setInMemory now key d) else (none, c2)
    | none => (none, c2)

/-- `set(prefix, params, data)`: write-through to both tiers. -/
def CacheManager.set (c : CacheManager) (now : Int) (pre : String)
    (params : List (String × String)) (data : Json) : CacheManager :=
  let key := generateKey pre params
  (c.setInMemory now key data).setOnDisk now key data

/-- A cache with both tiers empty (the state of a fresh `CacheManager`). -/
def emptyCache : CacheManager :=
  { memoryCache := fun _ => none, diskCache := fun _ => none }

/-! ## Record store and sessions (from `DatabaseManager` in
`src/models/types.ts` and the `refine_results` MCP tool handler)

The `studies` table is modelled as a map from `nct_id` to its row; the
satellite tables (conditions, keywords, interventions, locations, outcomes)
are not read by the verified operations and are not modelled. JSON
serialization of the raw payload (`JSON.stringify` on upsert,
`JSON.parse` on read) is modelled as the identity on the structured
`Study` value. Timestamp columns are not modelled. -/

/-- `"" || null`-style coalescing on a defaulted string column. -/
def strOrNull (s : String) : Option String :=
  if s.isEmpty then none else some s

/-- `x || null` on an optional string: absent and empty both store NULL. -/
def optStrOrNull : Option String → Option String
  | none => none
  | some s => strOrNull s

/-- `x || null` on an optional number: absent and zero both store NULL. -/
def optIntOrNull : Option Int → Option Int
  | none => none
  | some n => if n == 0 then none else some n

/-- `x ? 1 : 0` on an optional boolean. -/
def boolToBit (b : Option Bool) : Int :=
  if b == some true then 1 else 0

/-- One row of the `studies` table: the flattened projection columns plus
the verbatim raw payload column. -/
structure StudyRow where
  briefTitle : String
  officialTitle : Option String
  acronym : Option String
  overallStatus : String
  studyType : Option String
  phase : Option String
  enrollmentCount : Option Int
  enrollmentType : Option String
  startDate : Option String
  startDateType : Option String
  primaryCompletionDate : Option String
  completionDate : Option String
  lastUpdatePosted : Option String
  hasResults : Int
  briefSummary : Option String
  detailedDescription : Option String
  eligibilityCriteria : Option String
  sex : Option String
  minimumAge : Option String
  maximumAge : Option String
  healthyVolunteers : Int
  leadSponsorName : Option String
  leadSponsorClass : Option String
  allocation : Option String
  interventionModel : Option String
  primaryPurpose : Option String
  masking : Option String
  isFdaRegulatedDrug : Int
  isFdaRegulatedDevice : Int
  ageGroups : Option String
  rawJson : Study
  deriving DecidableEq, Repr

/-- The persistent store: studies keyed by `nct_id`, the `search_sessions`
table (row presence per session id), and the `session_results` table (the
id rows of each session). -/
structure DbState where
  studies : String → Option StudyRow
  searchSessions : String → Bool
  sessionResults : String → List String

/-- A store with no rows at all. -/
def emptyDb : DbState :=
  { studies := fun _ => none
    searchSessions := fun _ => false
    sessionResults := fun _ => [] }

/-- The flattened projection computed by `upsertStudy`'s parameter list:
every column value, including the JavaScript `|| null` coalescing quirks
(an empty string or a zero count stores NULL), with the complete original
study stored in the `raw_json` column. The row is assembled in three steps
(`studyToRow1/2/3`) purely to keep each compiled definition small. -/
def studyToRow1 (study : Study) : StudyRow :=
  let protocol := study.protocolSection
  let identification := protocol.identificationModule
  let status := protocol.statusModule
  let design := protocol.designModule
  let enrollmentInfo : Option EnrollmentInfo := design.bind DesignModule.enrollmentInfo
  { briefTitle := identification.briefTitle
    officialTitle := strOrNull identification.officialTitle
    acronym := strOrNull identification.acronym
    overallStatus := status.overallStatus
    studyType := optStrOrNull (design.map DesignModule.studyType)
    phase := strOrNull (String.intercalate ", " ((design.map DesignModule.phases).getD []))
    enrollmentCount := optIntOrNull (enrollmentInfo.bind EnrollmentInfo.count)
    enrollmentType := optStrOrNull (enrollmentInfo.bind EnrollmentInfo.type)
    startDate := optStrOrNull (status.startDateStruct.bind DateStruct.date)
    startDateType := optStrOrNull (status.startDateStruct.bind DateStruct.type)
    primaryCompletionDate := none
    completionDate := none
    lastUpdatePosted := none
    hasResults := 0
    briefSummary := none
    detailedDescription := none
    eligibilityCriteria := none
    sex := none
    minimumAge := none
    maximumAge := none
    healthyVolunteers := 0
    leadSponsorName := none
    leadSponsorClass := none
    allocation := none
    interventionModel := none
    primaryPurpose := none
    masking := none
    isFdaRegulatedDrug := 0
    isFdaRegulatedDevice := 0
    ageGroups := none
    rawJson := study }

/-- Second assembly step: status-date, results and eligibility columns. -/
def studyToRow2 (study : Study) (r : StudyRow) : StudyRow :=
  let protocol := study.protocolSection
  let status := protocol.statusModule
  let description := protocol.descriptionModule
  let eligibility := protocol.eligibilityModule
  { r with
    primaryCompletionDate := optStrOrNull (status.primaryCompletionDateStruct.bind DateStruct.date)
    completionDate := optStrOrNull (status.completionDateStruct.bind DateStruct.date)
    lastUpdatePosted := optStrOrNull (status.lastUpdatePostDateStruct.bind DateStruct.date)
    hasResults := boolToBit study.hasResults
    briefSummary := optStrOrNull (description.map DescriptionModule.briefSummary)
    detailedDescription := optStrOrNull (description.map DescriptionModule.detailedDescription)
    eligibilityCriteria := optStrOrNull (eligibility.bind EligibilityModule.eligibilityCriteria)
    sex := optStrOrNull (eligibility.bind EligibilityModule.sex)
    minimumAge := optStrOrNull (eligibility.bind EligibilityModule.minimumAge)
    maximumAge := optStrOrNull (eligibility.bind EligibilityModule.maximumAge) }

/-- Third assembly step: sponsor, design-info, oversight and age-group
columns. -/
def studyToRow3 (study : Study) (r : StudyRow) : StudyRow :=
  let protocol := study.protocolSection
  let design := protocol.designModule
  let eligibility := protocol.eligibilityModule
  let sponsor := protocol.sponsorCollaboratorsModule
  let oversight := protocol.oversightModule
  let designInfo : Option DesignInfo := design.bind DesignModule.designInfo
  let leadSponsor : Option LeadSponsor := sponsor.bind SponsorCollaboratorsModule.leadSponsor
  { r with
    healthyVolunteers := boolToBit (eligibility.bind EligibilityModule.healthyVolunteers)
    leadSponsorName := optStrOrNull (leadSponsor.bind LeadSponsor.name)
    leadSponsorClass := optStrOrNull (leadSponsor.bind LeadSponsor.class_)
    allocation := optStrOrNull (designInfo.bind DesignInfo.allocation)
    interventionModel := optStrOrNull (designInfo.bind DesignInfo.interventionModel)
    primaryPurpose := optStrOrNull (designInfo.bind DesignInfo.primaryPurpose)
    masking := optStrOrNull ((designInfo.bind DesignInfo.maskingInfo).bind MaskingInfo.masking)
    isFdaRegulatedDrug := boolToBit (oversight.bind OversightModule.isFdaRegulatedDrug)
    isFdaRegulatedDevice := boolToBit (oversight.bind OversightModule.isFdaRegulatedDevice)
    ageGroups := strOrNull (String.intercalate "," ((eligibility.map EligibilityModule.stdAges).getD [])) }

/-- The complete flattened row for a study. -/
def studyToRow (study : Study) : StudyRow :=
  studyToRow3 study (studyToRow2 study (studyToRow1 study))

/-- `upsertStudy`: `INSERT ... ON CONFLICT(nct_id) DO UPDATE` — one row per
external id, insert and update the same operation. -/
def upsertStudy (db : DbState) (study : Study) : DbState :=
  let nctId := study.protocolSection.identificationModule.nctId
  { db with studies := fun k => if k == nctId then some (studyToRow study) else db.studies k }

/-- `getStudy`: `SELECT raw_json FROM studies WHERE nct_id = ?`, parsed back
into a study — reads only the raw payload column. -/
def getStudy (db : DbState) (nctId : String) : Option Study :=
  (db.studies nctId).map StudyRow.rawJson

/-- `createSession`: insert the session row and one result row per id. -/
def createSession (db : DbState) (sessionId : String) (nctIds : List String) :
    DbState :=
  { db with
    searchSessions := fun k => if k == sessionId then true else db.searchSessions k
    sessionResults := fun k => if k == sessionId then nctIds else db.sessionResults k }

/-- `getSessionResults`: join the session's result rows with the `studies`
table and parse each raw payload; ids without a study row drop out of the
join. (The `last_accessed_at` touch is a timestamp column, not modelled.) -/
def getSessionResults (db : DbState) (sessionId : String) : List Study :=
  (db.sessionResults sessionId).filterMap fun id =>
    (db.studies id).map StudyRow.rawJson

/-- `updateSessionResults`: delete the session's result rows, then insert
the new id set. -/
def updateSessionResults (db : DbState) (sessionId : String)
    (nctIds : List String) : DbState :=
  { db with sessionResults := fun k => if k == sessionId then nctIds else db.sessionResults k }

/-- The two observable outcomes of the `refine_results` tool handler: the
"Session ... not found or has no results." text, or the
"Filtered to N studies (from M)" text with the surviving records. -/
inductive RefineOutcome where
  | notFound (sessionId : String)
  | filtered (previousCount newCount : Nat) (studies : List Study)
  deriving DecidableEq

/-- The `refine_results` handler: resolve the session's current ids to
records, report not-found when nothing resolves, otherwise filter locally
and replace the session's id set with the survivors — no component other
than the record store and the filter engine is consulted. -/
def refineResults (db : DbState) (sessionId : String)
    (filterParams : FilterParams) : RefineOutcome × DbState :=
  let studies := getSessionResults db sessionId
  if studies.length == 0 then
    (RefineOutcome.notFound sessionId, db)
  else
    let filteredStudies := filterStudies studies filterParams
    let nctIds := filteredStudies.map fun s =>
      s.protocolSection.identificationModule.nctId
    let db' := updateSessionResults db sessionId nctIds
    (RefineOutcome.filtered studies.length filteredStudies.length filteredStudies, db')

/-! ## Concrete sample data used by witness theorems -/

/-- A minimal study: required modules only, every optional module absent. -/
def emptyStudy : Study :=
  { protocolSection :=
      { identificationModule :=
          { nctId := "NCT00000001", briefTitle := "A study", officialTitle := "", acronym := "" }
        statusModule :=
          { overallStatus := "RECRUITING", startDateStruct := none,
            primaryCompletionDateStruct := none, completionDateStruct := none,
            lastUpdatePostDateStruct := none }
        descriptionModule := none
        conditionsModule := none
        designModule := none
        armsInterventionsModule := none
        eligibilityModule := none
        contactsLocationsModule := none
        sponsorCollaboratorsModule := none
        oversightModule := none }
    hasResults := none }

/-- A study whose design module carries only a study type. -/
def studyStudyType (v : String) : Study :=
  { emptyStudy with
    protocolSection := { emptyStudy.protocolSection with
      designModule := some ({ studyType := v, phases := [],
                              designInfo := none, enrollmentInfo := none }) } }

/-- A design module that carries only the given design info. -/
def designWithInfo (di : DesignInfo) : DesignModule :=
  { studyType := "", phases := [], designInfo := some di, enrollmentInfo := none }

/-- A study whose design info carries only an allocation. -/
def studyAllocation (v : String) : Study :=
  { emptyStudy with
    protocolSection := { emptyStudy.protocolSection with
      designModule := some (designWithInfo
        { allocation := some v, interventionModel := none,
          primaryPurpose := none, maskingInfo := none }) } }

/-- A study whose design info carries only an intervention model. -/
def studyInterventionModel (v : String) : Study :=
  { emptyStudy with
    protocolSection := { emptyStudy.protocolSection with
      designModule := some (designWithInfo
        { allocation := none, interventionModel := some v,
          primaryPurpose := none, maskingInfo := none }) } }

/-- A study whose design info carries only a primary purpose. -/
def studyPrimaryPurpose (v : String) : Study :=
  { emptyStudy with
    protocolSection := { emptyStudy.protocolSection with
      designModule := some (designWithInfo
        { allocation := none, interventionModel := none,
          primaryPurpose := some v, maskingInfo := none }) } }

/-- A study whose design info carries only a masking value. -/
def studyMasking (v : String) : Study :=
  { emptyStudy with
    protocolSection := { emptyStudy.protocolSection with
      designModule := some (designWithInfo
        { allocation := none, interventionModel := none,
          primaryPurpose := none, maskingInfo := some ({ masking := some v }) }) } }

/-- A study whose eligibility module carries only a sex value. -/
def studySex (v : String) : Study :=
  { emptyStudy with
    protocolSection := { emptyStudy.protocolSection with
      eligibilityModule := some ({ eligibilityCriteria := none, healthyVolunteers := none,
                                   sex := some v, minimumAge := none, maximumAge := none,
                                   stdAges := [] }) } }

/-- A study whose lead sponsor carries only a class. -/
def studySponsorClass (v : String) : Study :=
  { emptyStudy with
    protocolSection := { emptyStudy.protocolSection with
      sponsorCollaboratorsModule :=
        some ({ leadSponsor := some ({ name := none, class_ := some v }) }) } }

/-- The design info of `sampleStudy`. -/
def sampleDesignInfo : DesignInfo :=
  { allocation := some "RANDOMIZED"
    interventionModel := some "PARALLEL"
    primaryPurpose := some "TREATMENT"
    maskingInfo := some ({ masking := some "DOUBLE" }) }

/-- The design module of `sampleStudy`. -/
def sampleDesignModule : DesignModule :=
  { studyType := "INTERVENTIONAL"
    phases := ["PHASE2"]
    designInfo := some sampleDesignInfo
    enrollmentInfo := some ({ count := some 120, type := some "ACTUAL" }) }

/-- The eligibility module of `sampleStudy`. -/
def sampleEligibility : EligibilityModule :=
  { eligibilityCriteria := none
    healthyVolunteers := some true
    sex := some "ALL"
    minimumAge := some "18 Years"
    maximumAge := some "65 Years"
    stdAges := ["ADULT"] }

/-- A fuller sample study used by the store/session witnesses. -/
def sampleStudy : Study :=
  { protocolSection :=
      { identificationModule :=
          { nctId := "NCT00000001", briefTitle := "A sample trial",
            officialTitle := "An official sample trial", acronym := "" }
        statusModule :=
          { overallStatus := "COMPLETED"
            startDateStruct := some ({ date := some "2020-01-15", type := some "ACTUAL" })
            primaryCompletionDateStruct := none
            completionDateStruct := some ({ date := some "2021-06-30", type := some "ACTUAL" })
            lastUpdatePostDateStruct := none }
        descriptionModule := none
        conditionsModule := some ({ conditions := ["Influenza"], keywords := ["vaccine"] })
        designModule := some sampleDesignModule
        armsInterventionsModule := none
        eligibilityModule := some sampleEligibility
        contactsLocationsModule := none
        sponsorCollaboratorsModule :=
          some ({ leadSponsor := some ({ name := some "Acme Pharma", class_ := some "INDUSTRY" }) })
        oversightModule := none }
    hasResults := none }

/-- A store holding `sampleStudy` and a session over it. -/
def dbSample : DbState :=
  createSession (upsertStudy emptyDb sampleStudy) "tok1" ["NCT00000001"]

/-- A store whose only session was created from a search that matched zero
records, so its current identifier set is empty. -/
def dbEmptySession : DbState :=
  createSession emptyDb "tok1" []

/-- Sample cache request parameters. -/
def sampleParams : List (String × String) :=
  [("query", "influenza")]

/-- The same key-value pairs as `sampleParams2Swapped`, one insertion
order. -/
def sampleParams2 : List (String × String) :=
  [("condition", "flu"), ("query", "influenza")]

/-- The same key-value pairs as `sampleParams2`, the other insertion
order. -/
def sampleParams2Swapped : List (String × String) :=
  [("query", "influenza"), ("condition", "flu")]

/-- A cache whose memory entry for the sample request is stale (written at
time 0) while its disk entry is fresh (written at time 90000). -/
def staleMemCache : CacheManager :=
  { memoryCache := fun k =>
      if k == generateKey "search" sampleParams then some ⟨Json.str "payload", 0⟩ else none
    diskCache := fun k =>
      if k == generateKey "search" sampleParams then some ⟨Json.str "payload", 90000⟩ else none }

/-- A study whose eligibility module reports both ages as `"N/A"`. -/
def studyAgeNA : Study :=
  { emptyStudy with
    protocolSection := { emptyStudy.protocolSection with
      eligibilityModule := some ({ eligibilityCriteria := none, healthyVolunteers := none,
                                   sex := none, minimumAge := some "N/A",
                                   maximumAge := some "N/A", stdAges := [] }) } }

/-- A store is key-consistent when every stored row's raw payload carries
the external id the row is filed under — exactly what `upsertStudy`
guarantees, since it files the row under the payload's own id. -/
def studiesKeyConsistent (db : DbState) : Prop :=
  ∀ id row, db.studies id = some row →
    row.rawJson.protocolSection.identificationModule.nctId = id

/-- A store is session-consistent when a session id with no
`search_sessions` row also has no `session_results` rows (the foreign key
of `session_results` enforces this). -/
def sessionsConsistent (db : DbState) : Prop :=
  ∀ sid, db.searchSessions sid = false → db.sessionResults sid = []

/-! ## Helper lemmas -/

/-- `BEq` on `Option` reduces to `BEq` on the carried values. -/
theorem some_beq_some {α : Type} [BEq α] (a b : α) :
    ((some a : Option α) == some b) = (a == b) := rfl

/-! ## Claim theorems -/

/-- C1: whenever `fdaRegulated` is specified (true or false), a record with
no `oversightModule` sub-structure fails `matches` and is excluded by
`filterStudies` (fail closed); when `fdaRegulated` is unspecified, erasing
the `oversightModule` never changes the verdict, so its absence alone never
excludes a record. -/
theorem fdaRegulated_missing_oversight_fails_closed :
    (∀ (filters : FilterParams) (study : Study) (b : Bool),
      filters.fdaRegulated = some b →
      study.protocolSection.oversightModule = none →
      matchesStudy study filters = false ∧
        ∀ l : List Study, study ∉ filterStudies l filters) ∧
    (∀ (filters : FilterParams) (study : Study),
      filters.fdaRegulated = none →
      matchesStudy
        { study with protocolSection :=
            { study.protocolSection with oversightModule := none } } filters =
        matchesStudy study filters) := by
  constructor
  · intro filters study b hb hov
    have hc : checkFdaRegulated filters study = false := by
      simp [checkFdaRegulated, hb, hov]
    refine ⟨by simp [matchesStudy, hc], ?_⟩
    intro l hl
    have hm : matchesStudy study filters = true := (List.mem_filter.mp hl).2
    simp [matchesStudy, hc] at hm
  · intro filters study hnone
    rcases study with ⟨⟨idm, stm, dem, com, dm, aim, elm, clm, spm, ovm⟩, hr⟩
    simp [matchesStudy, checkPhase, checkLocationCountry, checkLocationState,
      checkLocationCity, checkEnrollmentMin, checkEnrollmentMax, enrollmentOf,
      checkStartDateAfter, checkStartDateBefore, checkCompletionDateAfter,
      checkCompletionDateBefore, startDateOf, completionDateOf,
      checkInterventionType, checkHasResults, checkStudyType, checkSex,
      checkHealthyVolunteers, checkSponsorClass, checkAllocation,
      checkInterventionModel, checkPrimaryPurpose, checkMinAge, checkMaxAge,
      checkAgeGroups, checkMasking, checkFdaRegulated, checkKeyword, hnone]

/-- Witness for C1 at concrete inputs. -/
theorem fdaRegulated_missing_oversight_fails_closed_witness :
    matchesStudy emptyStudy { fdaRegulated := some true } = false ∧
    (∀ l : List Study, emptyStudy ∉ filterStudies l { fdaRegulated := some true }) ∧
    matchesStudy
      { emptyStudy with protocolSection :=
          { emptyStudy.protocolSection with oversightModule := none } }
      { keyword := some "vaccine" } =
      matchesStudy emptyStudy { keyword := some "vaccine" } := by
  refine ⟨?_, ?_, ?_⟩
  · exact (fdaRegulated_missing_oversight_fails_closed.1 _ emptyStudy true rfl rfl).1
  · exact (fdaRegulated_missing_oversight_fails_closed.1 _ emptyStudy true rfl rfl).2
  · exact fdaRegulated_missing_oversight_fails_closed.2 _ emptyStudy rfl

/-- C3: `filterStudies` is idempotent, is exactly `List.filter` of the pure
per-record predicate, returns an order-preserving subsequence of its input,
and membership in the output is membership in the input plus the
predicate. -/
theorem filterStudies_pure_idempotent :
    ∀ (S : List Study) (C : FilterParams),
      filterStudies (filterStudies S C) C = filterStudies S C ∧
      filterStudies S C = S.filter (fun s => matchesStudy s C) ∧
      (filterStudies S C).Sublist S ∧
      (∀ s, s ∈ filterStudies S C ↔ s ∈ S ∧ matchesStudy s C = true) := by
  intro S C
  refine ⟨?_, rfl, List.filter_sublist S, ?_⟩
  · simp [filterStudies, List.filter_filter]
  · intro s
    simp [filterStudies, List.mem_filter]

/-- Counterexample to C4: the study-type branch compares without separator
normalization, so a record stored as `"Expanded Access"` does not match the
criteria value `"EXPANDED_ACCESS"` even though the two normalize
identically. -/
theorem enum_separator_normalization_counterexample :
    normalizeEnum "Expanded Access" = normalizeEnum "EXPANDED_ACCESS" ∧
    matchesStudy (studyStudyType "Expanded Access")
      { studyType := some "EXPANDED_ACCESS" } = false := by
  exact ⟨rfl, by decide⟩

/-- C4 amended: allocation, intervention model and primary purpose compare
case-insensitively *after* space-to-underscore normalization; study type,
sex, masking and sponsor class compare case-insensitively only, with no
separator normalization. -/
theorem enum_match_case_insensitive_amended :
    ∀ (q : String), q ≠ "" → ∀ (v : String),
      (matchesStudy (studyAllocation v) { allocation := some q } =
        (normalizeEnum v == normalizeEnum q)) ∧
      (matchesStudy (studyInterventionModel v) { interventionModel := some q } =
        (normalizeEnum v == normalizeEnum q)) ∧
      (matchesStudy (studyPrimaryPurpose v) { primaryPurpose := some q } =
        (normalizeEnum v == normalizeEnum q)) ∧
      (matchesStudy (studyStudyType v) { studyType := some q } =
        (strToUpper v == strToUpper q)) ∧
      (matchesStudy (studySex v) { sex := some q } =
        (strToUpper v == strToUpper q)) ∧
      (matchesStudy (studyMasking v) { masking := some q } =
        (strToUpper v == strToUpper q)) ∧
      (matchesStudy (studySponsorClass v) { sponsorClass := some q } =
        (strToUpper v == strToUpper q)) := by
  intro q hq v
  have hqe : q.isEmpty = false := by
    cases h : q.isEmpty
    · rfl
    · exact absurd ((String.isEmpty_iff q).mp h) hq
  refine ⟨?_, ?_, ?_, ?_, ?_, ?_, ?_⟩ <;>
    simp [matchesStudy, checkPhase, checkLocationCountry, checkLocationState,
      checkLocationCity, checkEnrollmentMin, checkEnrollmentMax, enrollmentOf,
      checkStartDateAfter, checkStartDateBefore, checkCompletionDateAfter,
      checkCompletionDateBefore, startDateOf, completionDateOf,
      checkInterventionType, checkHasResults, checkStudyType, checkSex,
      checkHealthyVolunteers, checkSponsorClass, checkAllocation,
      checkInterventionModel, checkPrimaryPurpose, checkMinAge, checkMaxAge,
      checkAgeGroups, checkMasking, checkFdaRegulated, checkKeyword,
      studyAllocation, studyInterventionModel, studyPrimaryPurpose,
      studyStudyType, studySex, studyMasking, studySponsorClass,
      designWithInfo, emptyStudy, hqe, some_beq_some]

/-- Witness for the amended C4 at the spec's own example values. -/
theorem enum_match_case_insensitive_amended_witness :
    (matchesStudy (studyAllocation "Randomized") { allocation := some "RANDOMIZED" } =
      (normalizeEnum "Randomized" == normalizeEnum "RANDOMIZED")) ∧
    (matchesStudy (studyInterventionModel "Randomized")
        { interventionModel := some "RANDOMIZED" } =
      (normalizeEnum "Randomized" == normalizeEnum "RANDOMIZED")) ∧
    (matchesStudy (studyPrimaryPurpose "Randomized") { primaryPurpose := some "RANDOMIZED" } =
      (normalizeEnum "Randomized" == normalizeEnum "RANDOMIZED")) ∧
    (matchesStudy (studyStudyType "Randomized") { studyType := some "RANDOMIZED" } =
      (strToUpper "Randomized" == strToUpper "RANDOMIZED")) ∧
    (matchesStudy (studySex "Randomized") { sex := some "RANDOMIZED" } =
      (strToUpper "Randomized" == strToUpper "RANDOMIZED")) ∧
    (matchesStudy (studyMasking "Randomized") { masking := some "RANDOMIZED" } =
      (strToUpper "Randomized" == strToUpper "RANDOMIZED")) ∧
    (matchesStudy (studySponsorClass "Randomized") { sponsorClass := some "RANDOMIZED" } =
      (strToUpper "Randomized" == strToUpper "RANDOMIZED")) :=
  enum_match_case_insensitive_amended "RANDOMIZED" (by decide) "Randomized"

/-- Counterexample to C5: a record with no enrollment count is *not*
excluded when a bound is specified — the branch is skipped, not failed. -/
theorem enrollment_missing_field_counterexample :
    enrollmentOf emptyStudy = none ∧
    matchesStudy emptyStudy { enrollmentMin := some 10 } = true :=
  ⟨rfl, rfl⟩

/-- C5 amended: with both bounds specified, a record lacking the enrollment
count passes the enrollment branches unchecked, and a record with count `n`
matches exactly when `min ≤ n ≤ max` (inclusive bounds). -/
theorem enrollment_range_filter_amended :
    ∀ (study : Study) (lo hi : Int),
      (enrollmentOf study = none →
        matchesStudy study { enrollmentMin := some lo, enrollmentMax := some hi } = true) ∧
      (∀ n, enrollmentOf study = some n →
        (matchesStudy study { enrollmentMin := some lo, enrollmentMax := some hi } = true ↔
          lo ≤ n ∧ n ≤ hi)) := by
  intro study lo hi
  constructor
  · intro h
    simp [matchesStudy, checkPhase, checkLocationCountry, checkLocationState,
      checkLocationCity, checkEnrollmentMin, checkEnrollmentMax,
      checkStartDateAfter, checkStartDateBefore, checkCompletionDateAfter,
      checkCompletionDateBefore, checkInterventionType, checkHasResults,
      checkStudyType, checkSex, checkHealthyVolunteers, checkSponsorClass,
      checkAllocation, checkInterventionModel, checkPrimaryPurpose,
      checkMinAge, checkMaxAge, checkAgeGroups, checkMasking,
      checkFdaRegulated, checkKeyword, h]
  · intro n h
    simp [matchesStudy, checkPhase, checkLocationCountry, checkLocationState,
      checkLocationCity, checkEnrollmentMin, checkEnrollmentMax,
      checkStartDateAfter, checkStartDateBefore, checkCompletionDateAfter,
      checkCompletionDateBefore, checkInterventionType, checkHasResults,
      checkStudyType, checkSex, checkHealthyVolunteers, checkSponsorClass,
      checkAllocation, checkInterventionModel, checkPrimaryPurpose,
      checkMinAge, checkMaxAge, checkAgeGroups, checkMasking,
      checkFdaRegulated, checkKeyword, h, not_lt]

/-- Witness for the amended C5 at concrete inputs. -/
theorem enrollment_range_filter_amended_witness :
    (matchesStudy emptyStudy { enrollmentMin := some 10, enrollmentMax := some 20 } = true) ∧
    (matchesStudy sampleStudy { enrollmentMin := some 10, enrollmentMax := some 200 } = true ↔
      (10 : Int) ≤ 120 ∧ (120 : Int) ≤ 200) :=
  ⟨(enrollment_range_filter_amended emptyStudy 10 20).1 rfl,
   (enrollment_range_filter_amended sampleStudy 10 200).2 120 rfl⟩

/-- C10: when a minimum-age (resp. maximum-age) criterion is specified
(truthy), a record whose eligibility minimum (resp. maximum) age is absent
or the string `"N/A"` is excluded — the age filters fail closed on missing
or non-numeric values. -/
theorem age_filters_fail_closed :
    ∀ (filters : FilterParams) (study : Study),
      (strTruthy filters.minAge = true →
        ((study.protocolSection.eligibilityModule.bind EligibilityModule.minimumAge) = none ∨
         (study.protocolSection.eligibilityModule.bind EligibilityModule.minimumAge) =
           some "N/A") →
        matchesStudy study filters = false) ∧
      (strTruthy filters.maxAge = true →
        ((study.protocolSection.eligibilityModule.bind EligibilityModule.maximumAge) = none ∨
         (study.protocolSection.eligibilityModule.bind EligibilityModule.maximumAge) =
           some "N/A") →
        matchesStudy study filters = false) := by
  intro filters study
  have hna : ((("N/A" : String).isEmpty || ("N/A" : String) == "N/A")) = true := by decide
  constructor
  · intro ht hma
    have hc : checkMinAge filters study = false := by
      rcases hq : filters.minAge with _ | q
      · rw [hq] at ht
        simp [strTruthy] at ht
      · rw [hq] at ht
        have hqe : q.isEmpty = false := by simpa [strTruthy] using ht
        rcases hma with h | h
        · simp [checkMinAge, hq, hqe, h]
        · simp [checkMinAge, hq, hqe, h, hna]
    simp [matchesStudy, hc]
  · intro ht hma
    have hc : checkMaxAge filters study = false := by
      rcases hq : filters.maxAge with _ | q
      · rw [hq] at ht
        simp [strTruthy] at ht
      · rw [hq] at ht
        have hqe : q.isEmpty = false := by simpa [strTruthy] using ht
        rcases hma with h | h
        · simp [checkMaxAge, hq, hqe, h]
        · simp [checkMaxAge, hq, hqe, h, hna]
    simp [matchesStudy, hc]

/-- Witness for C10 at concrete inputs: an absent minimum age and an
`"N/A"` maximum age are both excluded. -/
theorem age_filters_fail_closed_witness :
    matchesStudy emptyStudy { minAge := some "18 Years" } = false ∧
    matchesStudy studyAgeNA { maxAge := some "65 Years" } = false :=
  ⟨(age_filters_fail_closed _ emptyStudy).1 (by decide) (Or.inl rfl),
   (age_filters_fail_closed _ studyAgeNA).2 (by decide) (Or.inr rfl)⟩

/-- Counterexample to C6: a falsy payload (here the number `0`) is written
through both tiers, yet an immediate `get` reports a miss, because both
tier hits are filtered through JavaScript truthiness (`if (memoryData)`,
`if (diskData)`). -/
theorem cache_falsy_payload_counterexample :
    ((emptyCache.set 0 "search" [] (Json.num 0)).get 0 "search" []).1 = none ∧
    ((emptyCache.set 0 "search" [] (Json.num 0)).get 0 "search" []).1 ≠
      some (Json.num 0) :=
  ⟨rfl, fun h => Option.noConfusion h⟩

/-- C6 amended: for every *truthy* payload, `set` followed immediately by
`get` returns the payload; and when the memory entry has outlived the
one-minute TTL while the disk entry is inside the 24-hour TTL, `get` still
returns the payload and re-inserts it into the memory tier stamped with the
current time. -/
theorem cache_tier_coherence_amended :
    ∀ (c : CacheManager) (now : Int) (pre : String)
      (params : List (String × String)) (v : Json),
      jsTruthy v = true →
      (((c.set now pre params v).get now pre params).1 = some v) ∧
      (∀ tm td,
        c.memoryCache (generateKey pre params) = some ⟨v, tm⟩ →
        now - tm > MEMORY_CACHE_TTL_MS →
        c.diskCache (generateKey pre params) = some ⟨v, td⟩ →
        ¬(now - td > DISK_CACHE_TTL_MS) →
        ((c.get now pre params).1 = some v ∧
         (c.get now pre params).2.memoryCache (generateKey pre params) =
           some ⟨v, now⟩)) := by
  intro c now pre params v hv
  have httl : ¬((0 : Int) > MEMORY_CACHE_TTL_MS) := by decide
  constructor
  · simp [CacheManager.set, CacheManager.get, CacheManager.getFromMemory,
      CacheManager.setInMemory, CacheManager.setOnDisk, jsTruthyOpt,
      Int.sub_self, httl, hv]
  · intro tm td hm hexp hd hdok
    simp [CacheManager.get, CacheManager.getFromMemory, CacheManager.getFromDisk,
      CacheManager.setInMemory, jsTruthyOpt, hm, hexp, hd, hdok, hv]

/-- Witness for the amended C6: a fresh write is read back, and a stale
memory entry backed by a fresh disk entry is served and re-promoted. -/
theorem cache_tier_coherence_amended_witness :
    (((emptyCache.set 5 "search" sampleParams (Json.str "x")).get 5 "search"
        sampleParams).1 = some (Json.str "x")) ∧
    ((staleMemCache.get 100000 "search" sampleParams).1 = some (Json.str "payload") ∧
     (staleMemCache.get 100000 "search" sampleParams).2.memoryCache
        (generateKey "search" sampleParams) = some ⟨Json.str "payload", 100000⟩) := by
  constructor
  · exact (cache_tier_coherence_amended emptyCache 5 "search" sampleParams
      (Json.str "x") rfl).1
  · exact (cache_tier_coherence_amended staleMemCache 100000 "search" sampleParams
      (Json.str "payload") rfl).2 0 90000 (by simp [staleMemCache])
      (by decide) (by simp [staleMemCache]) (by decide)

/-- Association-list lookup is insensitive to permutation when the keys are
duplicate-free. -/
theorem lookup_eq_of_perm {α β : Type} [BEq α] [LawfulBEq α] :
    ∀ {p1 p2 : List (α × β)}, p1.Perm p2 →
      (p1.map Prod.fst).Nodup → ∀ k : α, p1.lookup k = p2.lookup k := by
  intro p1 p2 h
  induction h with
  | nil => intro _ _; rfl
  | cons x h ih =>
    rename_i t1 t2
    intro hnd k
    obtain ⟨xa, xb⟩ := x
    have hcons : (xa :: t1.map Prod.fst).Nodup := by simpa using hnd
    have hnd' : (t1.map Prod.fst).Nodup := (List.nodup_cons.mp hcons).2
    cases hk : k == xa
    · simp [List.lookup, hk, ih hnd' k]
    · simp [List.lookup, hk]
  | swap x y t =>
    intro hnd k
    obtain ⟨xa, xb⟩ := x
    obtain ⟨ya, yb⟩ := y
    have hcons : (ya :: xa :: t.map Prod.fst).Nodup := by simpa using hnd
    have hne : ya ≠ xa := fun he =>
      (List.nodup_cons.mp hcons).1 (by rw [he]; exact List.mem_cons_self _ _)
    cases hky : k == ya <;> cases hkx : k == xa
    · simp [List.lookup, hky, hkx]
    · simp [List.lookup, hky, hkx]
    · simp [List.lookup, hky, hkx]
    · exact absurd ((eq_of_beq hky).symm.trans (eq_of_beq hkx)) hne
  | trans h1 h2 ih1 ih2 =>
    intro hnd k
    have hnd2 := ((h1.map Prod.fst).nodup_iff).mp hnd
    exact (ih1 hnd k).trans (ih2 hnd2 k)

/-- C7: the cache key is insensitive to the insertion order of the
parameter object's properties — two parameter objects with the same
key-value pairs produce the same key, so `get` and `set` address the same
memory-tier and disk-tier entries. -/
theorem generateKey_order_independent :
    ∀ (pre : String) (p1 p2 : List (String × String)),
      p1.Perm p2 → (p1.map Prod.fst).Nodup →
      generateKey pre p1 = generateKey pre p2 ∧
      (∀ (c : CacheManager) (now : Int), c.get now pre p1 = c.get now pre p2) ∧
      (∀ (c : CacheManager) (now : Int) (v : Json),
        c.set now pre p1 v = c.set now pre p2 v) := by
  intro pre p1 p2 h hnd
  have hstr : stringifySortedParams p1 = stringifySortedParams p2 := by
    unfold stringifySortedParams
    have hkeys : (p1.map Prod.fst).insertionSort (· ≤ ·) =
        (p2.map Prod.fst).insertionSort (· ≤ ·) := by
      apply List.eq_of_perm_of_sorted (r := (· ≤ · : String → String → Prop))
      · exact ((List.perm_insertionSort _ _).trans (h.map Prod.fst)).trans
          (List.perm_insertionSort _ _).symm
      · exact List.sorted_insertionSort _ _
      · exact List.sorted_insertionSort _ _
    have hlook : (fun k => (p1.lookup k).map fun v =>
          quoteJsonStr k ++ ":" ++ quoteJsonStr v) =
        (fun k => (p2.lookup k).map fun v =>
          quoteJsonStr k ++ ":" ++ quoteJsonStr v) :=
      funext fun k => by rw [lookup_eq_of_perm h hnd k]
    rw [hkeys, hlook]
  have hkey : generateKey pre p1 = generateKey pre p2 := by
    unfold generateKey
    rw [hstr]
  refine ⟨hkey, fun c now => ?_, fun c now v => ?_⟩
  · unfold CacheManager.get
    rw [hkey]
  · unfold CacheManager.set
    rw [hkey]

/-- Witness for C7: the two insertion orders of the same two properties
hash to the same key. -/
theorem generateKey_order_independent_witness :
    generateKey "search" sampleParams2 = generateKey "search" sampleParams2Swapped :=
  (generateKey_order_independent "search" sampleParams2 sampleParams2Swapped
    (by decide) (by decide)).1

/-- C8: upserting a study and reading it back by its id recovers the
complete original payload from the `raw_json` column; the round-trip
survives repeated upserts (same or updated study); and `getStudy` depends
only on the raw payload column, never on the flattened projection. -/
theorem upsert_getStudy_raw_roundtrip :
    (∀ (db : DbState) (s : Study),
      getStudy (upsertStudy db s) s.protocolSection.identificationModule.nctId =
        some s) ∧
    (∀ (db : DbState) (s s' : Study),
      getStudy (upsertStudy (upsertStudy db s') s)
        s.protocolSection.identificationModule.nctId = some s) ∧
    (∀ (db : DbState) (id : String) (row : StudyRow),
      db.studies id = some row → getStudy db id = some row.rawJson) := by
  refine ⟨?_, ?_, ?_⟩
  · intro db s
    simp [getStudy, upsertStudy, studyToRow, studyToRow1, studyToRow2, studyToRow3]
  · intro db s s'
    simp [getStudy, upsertStudy, studyToRow, studyToRow1, studyToRow2, studyToRow3]
  · intro db id row h
    simp [getStudy, h]

/-- Witness for C8: the sample study round-trips through the store. -/
theorem upsert_getStudy_raw_roundtrip_witness :
    getStudy (upsertStudy emptyDb sampleStudy) "NCT00000001" = some sampleStudy ∧
    getStudy (upsertStudy (upsertStudy emptyDb emptyStudy) sampleStudy)
      "NCT00000001" = some sampleStudy ∧
    getStudy dbSample "NCT00000001" = some sampleStudy := by
  refine ⟨?_, ?_, ?_⟩
  · exact upsert_getStudy_raw_roundtrip.1 emptyDb sampleStudy
  · exact upsert_getStudy_raw_roundtrip.2.1 emptyDb sampleStudy emptyStudy
  · exact upsert_getStudy_raw_roundtrip.2.2 dbSample "NCT00000001"
      (studyToRow sampleStudy) rfl

/-- Counterexample to C9: a session that exists but whose current
identifier set resolves to zero records (here: created from a search that
matched nothing) gets the same not-found outcome as a completely
unrecognized token, not an explicit count-0 result — the two outcomes are
not distinct to the caller. -/
theorem refine_empty_session_counterexample :
    dbEmptySession.searchSessions "tok1" = true ∧
    (refineResults dbEmptySession "tok1" { hasResults := some true }).1 =
      RefineOutcome.notFound "tok1" ∧
    (refineResults emptyDb "tok1" { hasResults := some true }).1 =
      RefineOutcome.notFound "tok1" :=
  ⟨rfl, rfl, rfl⟩

/-- C9 amended: an unrecognized token yields the not-found outcome (which
carries no records); an existing session that resolves to at least one
record but whose criteria match zero of them yields the explicit
`filtered _ 0 []` outcome; and the two outcome shapes are distinct. A
session resolving to zero records, however, is reported not-found. -/
theorem refine_outcomes_amended :
    (∀ (db : DbState) (sid : String) (f : FilterParams),
      sessionsConsistent db → db.searchSessions sid = false →
      (refineResults db sid f).1 = RefineOutcome.notFound sid) ∧
    (∀ (db : DbState) (sid : String) (f : FilterParams),
      getSessionResults db sid ≠ [] →
      filterStudies (getSessionResults db sid) f = [] →
      (refineResults db sid f).1 =
        RefineOutcome.filtered (getSessionResults db sid).length 0 []) ∧
    (∀ (n m : Nat) (l : List Study) (sid : String),
      RefineOutcome.filtered n m l ≠ RefineOutcome.notFound sid) := by
  refine ⟨?_, ?_, ?_⟩
  · intro db sid f hc hns
    have hempty : db.sessionResults sid = [] := hc sid hns
    simp [refineResults, getSessionResults, hempty]
  · intro db sid f hne hzero
    have hlen : ((getSessionResults db sid).length == 0) = false := by
      simp [List.length_eq_zero]
      exact hne
    simp [refineResults, hlen, hzero]
  · intro n m l sid h
    exact RefineOutcome.noConfusion h

/-- Witness for the amended C9 on the sample store: an unknown token is
not-found; refining the one-record session with a zero-matching criterion
reports `filtered 1 0 []`. -/
theorem refine_outcomes_amended_witness :
    (refineResults dbSample "missing" { hasResults := some true }).1 =
      RefineOutcome.notFound "missing" ∧
    (refineResults dbSample "tok1" { hasResults := some true }).1 =
      RefineOutcome.filtered 1 0 [] := by
  constructor
  · refine refine_outcomes_amended.1 dbSample "missing" _ ?_ rfl
    intro sid h
    by_cases hc : sid = "tok1"
    · subst hc
      simp [dbSample, createSession, emptyDb] at h
    · simp [dbSample, createSession, upsertStudy, emptyDb, hc]
  · exact refine_outcomes_amended.2.1 dbSample "tok1" { hasResults := some true }
      (by decide) (by decide)

/-- The identifier set a refinement stores is exactly the current-set
filter: resolving each id, keeping the matching records, and reading the
ids back off the surviving records is the same as filtering the id list
directly — provided every stored row carries its own key and every id
resolves. -/
theorem refine_ids_eq (db : DbState) (f : FilterParams) :
    ∀ (l : List String),
      studiesKeyConsistent db →
      (∀ id, id ∈ l → (db.studies id).isSome) →
      (filterStudies (l.filterMap fun id => (db.studies id).map StudyRow.rawJson) f).map
          (fun s => s.protocolSection.identificationModule.nctId) =
        l.filter (fun id =>
          match db.studies id with
          | some row => matchesStudy row.rawJson f
          | none => false) := by
  intro l hwf
  induction l with
  | nil => intro _; rfl
  | cons id t ih =>
    intro hres
    have hid := hres id (List.mem_cons_self id t)
    rcases hrow : db.studies id with _ | row
    · rw [hrow] at hid
      simp at hid
    · have hnct : row.rawJson.protocolSection.identificationModule.nctId = id :=
        hwf id row hrow
      have ih' := ih fun i hi => hres i (List.mem_cons_of_mem _ hi)
      by_cases hm : matchesStudy row.rawJson f = true
      · simpa [filterStudies, List.filterMap_cons, hrow, List.filter_cons, hm, hnct]
          using ih'
      · simpa [filterStudies, List.filterMap_cons, hrow, List.filter_cons,
          Bool.eq_false_iff.mpr hm] using ih'

/-- C2: a refinement never touches the studies table (no external fetch or
upsert is visible in the store), stores a subset of the session's current
identifier set, never increases its size, and — when the session's ids all
resolve and at least one record survives resolution — replaces the stored
set with exactly the subset of current identifiers whose resolved records
satisfy the criteria. -/
theorem refine_narrows_monotonically :
    ∀ (db : DbState) (sid : String) (f : FilterParams),
      studiesKeyConsistent db →
      ((refineResults db sid f).2.studies = db.studies) ∧
      (∀ x, x ∈ (refineResults db sid f).2.sessionResults sid →
        x ∈ db.sessionResults sid) ∧
      (((refineResults db sid f).2.sessionResults sid).length ≤
        (db.sessionResults sid).length) ∧
      ((∀ id, id ∈ db.sessionResults sid → (db.studies id).isSome) →
        (refineResults db sid f).2.sessionResults sid =
          (db.sessionResults sid).filter (fun id =>
            match db.studies id with
            | some row => matchesStudy row.rawJson f
            | none => false)) := by
  intro db sid f hwf
  by_cases hlen : ((getSessionResults db sid).length == 0) = true
  · have hout : (refineResults db sid f).2 = db := by
      simp [refineResults, hlen]
    rw [hout]
    refine ⟨rfl, fun x hx => hx, le_refl _, fun hall => ?_⟩
    have hnil : getSessionResults db sid = [] :=
      List.length_eq_zero.mp (by simpa using hlen)
    have hold : db.sessionResults sid = [] := by
      rcases hl : db.sessionResults sid with _ | ⟨id, t⟩
      · rfl
      · exfalso
        have h1 := hall id (by rw [hl]; exact List.mem_cons_self _ _)
        have hnil' : (id :: t).filterMap
            (fun i => (db.studies i).map StudyRow.rawJson) = [] := by
          rw [← hl]
          simpa [getSessionResults] using hnil
        have hgid := List.filterMap_eq_nil_iff.mp hnil' id (List.mem_cons_self _ _)
        rcases hs : db.studies id with _ | row
        · rw [hs] at h1
          simp at h1
        · rw [hs] at hgid
          simp at hgid
    rw [hold]
    rfl
  · have hout : (refineResults db sid f).2 =
        updateSessionResults db sid
          ((filterStudies (getSessionResults db sid) f).map
            (fun s => s.protocolSection.identificationModule.nctId)) := by
      simp [refineResults, hlen]
    have hres : (refineResults db sid f).2.sessionResults sid =
        (filterStudies (getSessionResults db sid) f).map
          (fun s => s.protocolSection.identificationModule.nctId) := by
      rw [hout]
      simp [updateSessionResults]
    refine ⟨by rw [hout]; rfl, ?_, ?_, ?_⟩
    · intro x hx
      rw [hres] at hx
      simp only [getSessionResults, filterStudies, List.mem_map,
        List.mem_filter, List.mem_filterMap, Option.map_eq_some'] at hx
      obtain ⟨s, ⟨⟨id, hidmem, row, hrow, hs⟩, _⟩, hx⟩ := hx
      subst hs
      rw [← hx, hwf id row hrow]
      exact hidmem
    · rw [hres]
      calc ((filterStudies (getSessionResults db sid) f).map _).length
          = (filterStudies (getSessionResults db sid) f).length :=
            List.length_map _ _
        _ ≤ (getSessionResults db sid).length :=
            List.length_filter_le _ _
        _ ≤ (db.sessionResults sid).length :=
            List.length_filterMap_le _ _
    · intro hall
      rw [hres]
      exact refine_ids_eq db f (db.sessionResults sid) hwf hall

/-- Witness for C2 on the sample store: refining the one-record session by
a criterion its record fails keeps the studies table intact and shrinks the
stored set to the empty subset. -/
theorem refine_narrows_monotonically_witness :
    ((refineResults dbSample "tok1" { hasResults := some true }).2.studies =
      dbSample.studies) ∧
    (∀ x, x ∈ (refineResults dbSample "tok1" { hasResults := some true
      }).2.sessionResults "tok1" → x ∈ dbSample.sessionResults "tok1") ∧
    (((refineResults dbSample "tok1" { hasResults := some true
      }).2.sessionResults "tok1").length ≤
      (dbSample.sessionResults "tok1").length) ∧
    ((∀ id, id ∈ dbSample.sessionResults "tok1" →
        (dbSample.studies id).isSome) →
      (refineResults dbSample "tok1" { hasResults := some true
        }).2.sessionResults "tok1" =
        (dbSample.sessionResults "tok1").filter (fun id =>
          match dbSample.studies id with
          | some row => matchesStudy row.rawJson { hasResults := some true }
          | none => false)) := by
  apply refine_narrows_monotonically dbSample "tok1" { hasResults := some true }
  intro id row h
  by_cases hc : id = "NCT00000001"
  · subst hc
    have hrow : row = studyToRow sampleStudy := by
      have h' : some (studyToRow sampleStudy) = some row := by
        simpa [dbSample, createSession, upsertStudy, emptyDb, sampleStudy] using h
      exact (Option.some.injEq _ _ ▸ h').symm
    rw [hrow]
    rfl
  · simp [dbSample, createSession, upsertStudy, emptyDb, sampleStudy, hc] at h

end ClinicalTrials
